import Mathlib

/-!
Shallow embedding of the SmartGuard risk-scoring engine
(backend/services/riskScoring.js) and of the delegation lifecycle routes
(the delegation add/list/revoke express handlers and the validation helper
in backend/utils/helpers.js).

Modelling conventions:
- chain addresses are plain strings; the viem `isAddress` syntax check is
  modelled as "0x followed by 40 hex digits";
- JS numbers resulting from `parseFloat(formatEther(wei))` are modelled
  exactly as rationals wei / 10^18;
- accumulating scores are integers (the source only ever adds and
  subtracts integer constants before `Math.round`, which is the identity);
- the chain / indexer / remote-contract collaborators are replaced by
  explicit arguments carrying the values (or failures) they would return;
- the in-memory `delegationsDB` Map is an association list in insertion
  order, mirroring JS `Map` iteration semantics.
-/

namespace SmartGuard

/-- Syntactic address check modelling viem's `isAddress`: `0x` + 40 hex digits. -/
def isAddress (s : String) : Bool :=
  match s.toList with
  | '0' :: 'x' :: rest =>
      rest.length == 40 && rest.all fun c =>
        c.isDigit || ('a' ≤ c && c ≤ 'f') || ('A' ≤ c && c ≤ 'F')
  | _ => false

/-- Model of JS `String.prototype.includes`, via list infixes. -/
def strIncludes (s sub : String) : Bool :=
  decide (sub.toList <:+: s.toList)

/-- Static known-risky contract list from riskScoring.js. -/
def KNOWN_RISKY_CONTRACTS : List String :=
  [ "0x000000000000000000000000000000000000dead",
    "0xffffffffffffffffffffffffffffffffffffffff",
    "0x1234567890123456789012345678901234567890" ]

structure Reputation where
  risk : ℤ
  category : String

/-- Static contract-reputation table from riskScoring.js. -/
def CONTRACT_REPUTATION (addr : String) : Option Reputation :=
  if addr = "0x742e4c4b6e7d2a27d7a5a5e5e5b5a5e5e5b5a5e5e" then some ⟨20, "DeFi"⟩
  else if addr = "0x852e4c4b6e7d2a27d7a5a5e5e5b5a5e5e5b5a5e5e" then some ⟨60, "Gambling"⟩
  else if addr = "0x962e4c4b6e7d2a27d7a5a5e5e5b5a5e5e5b5a5e5e" then some ⟨80, "High-Risk"⟩
  else none

structure CodeAnalysis where
  score : ℤ
  factors : List String
  hasComplexLogic : Bool
  potentialRisks : List String

/-- Model of `analyzeContractCode` from riskScoring.js. -/
def analyzeContractCode (code : String) : CodeAnalysis :=
  let factors :=
    (if 10000 < code.length then ["Large contract code"] else []) ++
    (if strIncludes code "delegatecall" then ["Uses delegatecall - potential proxy risk"] else []) ++
    (if strIncludes code "selfdestruct" then ["Contains selfdestruct function"] else [])
  let score : ℤ :=
    (if 10000 < code.length then 10 else 0) +
    (if strIncludes code "delegatecall" then 20 else 0) +
    (if strIncludes code "selfdestruct" then 25 else 0)
  { score := score, factors := factors,
    hasComplexLogic := 5000 < code.length, potentialRisks := factors }

/-- Model of `analyzeCodeComplexity` from riskScoring.js. -/
def analyzeCodeComplexity (code : String) : String :=
  if code.length < 1000 then "Low"
  else if code.length < 5000 then "Medium"
  else "High"

/-- Model of the `getRiskLevel` local to riskScoring.js (thresholds 70 / 30). -/
def getRiskLevel (score : ℤ) : String :=
  if 70 ≤ score then "High"
  else if 30 ≤ score then "Medium"
  else "Low"

/-- Model of `generateRecommendations` from riskScoring.js. -/
def generateRecommendations (score : ℤ) (factors : List String) : List String :=
  (if 70 ≤ score then
    [ "Consider using a hardware wallet",
      "Review all token approvals",
      "Enable transaction monitoring" ]
  else if 30 ≤ score then
    [ "Monitor wallet activity regularly",
      "Review token approvals monthly",
      "Consider multi-signature for large holdings" ]
  else
    [ "Continue current security practices",
      "Keep software updated",
      "Use strong password and 2FA" ]) ++
  (if factors.contains "No transaction history" then
    ["Consider making a test transaction first"] else []) ++
  (if factors.contains "High balance" then
    ["Diversify assets across multiple wallets"] else [])

/-- Model of `Math.max(0, Math.min(100, x))`. -/
def clampScore (x : ℤ) : ℤ := max 0 (min 100 x)

/-- Model of `parseFloat(formatEther(wei))`, exact as a rational. -/
def weiToEth (wei : ℕ) : ℚ := (wei : ℚ) / 10 ^ 18

/-- Lower-casing, as the source's `toLowerCase`, character by character. -/
def strToLower (s : String) : String :=
  String.mk (s.toList.map Char.toLower)

/-- Model of JS `String.prototype.startsWith`, via list operations. -/
def strStartsWith (s p : String) : Bool :=
  p.toList.isPrefixOf s.toList

/-- Chain facts fetched by `scoreWallet`; the risky-interaction result of
`checkRiskyInteractions` (random in the source) is an explicit input. -/
structure WalletFacts where
  balanceWei : ℕ
  txCount : ℕ
  code : String
  interactions : List String

structure WalletDetails where
  balance : ℚ
  transactionCount : ℕ
  isContract : Bool
  riskyInteractions : ℕ
  codeComplexity : Option String
  deriving DecidableEq, Inhabited

structure WalletAssessment where
  riskScore : ℤ
  riskLevel : String
  factors : List String
  warnings : List String
  details : WalletDetails
  recommendations : List String
  deriving DecidableEq, Inhabited

def riskyFactorMsg (n : ℕ) : String :=
  "Interacted with " ++ toString n ++ " risky contracts"

def riskyWarnMsg (l : List String) : String :=
  "Found interactions with risky contracts: " ++ String.intercalate ", " l

/-- Model of `scoreWallet` from riskScoring.js.  Each additive term and each factor
string mirrors one `if` of the source, in source order; the source pushes
to the score and the factor list simultaneously under the same condition,
here expressed as parallel conditionals.  The source's
`balanceEth === 0` and `balanceEth > 10` comparisons are expressed at the
wei level; `weiToEth_eq_zero_iff` and `ten_lt_weiToEth_iff` prove the
two forms equivalent. -/
def scoreWallet (address : String) (facts : WalletFacts) : Except String WalletAssessment :=
  if ¬ isAddress address then
    .error "Failed to score wallet: Invalid wallet address"
  else
    let isContract : Bool := facts.code != "0x"
    let balanceEth : ℚ := weiToEth facts.balanceWei
    let balanceAdd : ℤ :=
      if facts.balanceWei = 0 then 10
      else if 10 * 10 ^ 18 < facts.balanceWei then 15 else 0
    let balanceFactors : List String :=
      if facts.balanceWei = 0 then ["Zero balance"]
      else if 10 * 10 ^ 18 < facts.balanceWei then ["High balance"] else []
    let txAdd : ℤ :=
      if facts.txCount = 0 then 20 else if facts.txCount < 3 then 10 else 0
    let txFactors : List String :=
      if facts.txCount = 0 then ["No transaction history"]
      else if facts.txCount < 3 then ["Low transaction count"] else []
    let txWarnings : List String :=
      if facts.txCount = 0 then ["Wallet appears to be new or inactive"] else []
    let contractAdd : ℤ := if isContract then -10 else 0
    let contractFactors : List String := if isContract then ["Contract address"] else []
    let codeAdd : ℤ :=
      if isContract && facts.code != "0x" then (analyzeContractCode facts.code).score else 0
    let codeFactors : List String :=
      if isContract && facts.code != "0x" then (analyzeContractCode facts.code).factors else []
    let interactionAdd : ℤ :=
      if 0 < facts.interactions.length then (facts.interactions.length : ℤ) * 15 else 0
    let interactionFactors : List String :=
      if 0 < facts.interactions.length then [riskyFactorMsg facts.interactions.length] else []
    let interactionWarnings : List String :=
      if 0 < facts.interactions.length then [riskyWarnMsg facts.interactions] else []
    let factors := balanceFactors ++ txFactors ++ contractFactors ++ codeFactors ++ interactionFactors
    let warnings := txWarnings ++ interactionWarnings
    let riskScore := clampScore (50 + balanceAdd + txAdd + contractAdd + codeAdd + interactionAdd)
    .ok
      { riskScore := riskScore
        riskLevel := getRiskLevel riskScore
        factors := factors
        warnings := warnings
        details :=
          { balance := balanceEth
            transactionCount := facts.txCount
            isContract := isContract
            riskyInteractions := facts.interactions.length
            codeComplexity := if isContract then some (analyzeCodeComplexity facts.code) else none }
        recommendations := generateRecommendations riskScore factors }

structure ContractAnalysis where
  codeSize : ℕ
  hasComplexLogic : Bool
  potentialRisks : List String
  deriving DecidableEq, Inhabited

structure ContractAssessment where
  contract : String
  score : ℤ
  riskLevel : String
  reasons : List String
  verified : Bool
  analysis : Option ContractAnalysis
  deriving DecidableEq, Inhabited

/-- Model of `scoreContract` from riskScoring.js; `code` is the bytecode fetched
for the address (the source fetches it once for `getCode` and once inside
`isContractAddress`; both reads return the same chain value). -/
def scoreContract (contractAddress : String) (code : String) : Except String ContractAssessment :=
  if ¬ isAddress contractAddress then
    .error "Failed to score contract: Invalid contract address"
  else
    let isContract : Bool := code != "0x"
    if ¬ isContract ∨ code = "0x" then
      .ok
        { contract := contractAddress, score := 0, riskLevel := "Unknown",
          reasons := ["Not a contract or no code"], verified := false, analysis := none }
    else
      let analysis := analyzeContractCode code
      let baseScore : ℤ := 50 + analysis.score
      let lowerAddress := strToLower contractAddress
      let riskScore0 : ℤ :=
        if lowerAddress ∈ KNOWN_RISKY_CONTRACTS then 100
        else match CONTRACT_REPUTATION lowerAddress with
          | some reputation => max baseScore reputation.risk
          | none => baseScore
      let reasons :=
        analysis.factors ++
        (if lowerAddress ∈ KNOWN_RISKY_CONTRACTS then ["Flagged as known risky contract"]
         else match CONTRACT_REPUTATION lowerAddress with
          | some reputation => ["Categorized as " ++ reputation.category]
          | none => [])
      let riskScore := clampScore riskScore0
      .ok
        { contract := contractAddress
          score := riskScore
          riskLevel := getRiskLevel riskScore
          reasons := reasons
          verified := false
          analysis := some
            { codeSize := code.length
              hasComplexLogic := analysis.hasComplexLogic
              potentialRisks := analysis.potentialRisks } }

structure TxData where
  fromAddr : String
  toAddr : String
  value : Option ℕ
  data : Option String

structure TxAnalysis where
  valueRisk : Option String
  isContractInteraction : Option Bool
  contractRisk : Option ContractAssessment
  hasCalldata : Option Bool
  deriving DecidableEq, Inhabited

structure TxAssessment where
  riskScore : ℤ
  riskLevel : String
  warnings : List String
  analysis : TxAnalysis
  shouldProceed : Bool
  recommendations : List String
  deriving DecidableEq, Inhabited

def txContractWarnMsg (s : ℤ) : String :=
  "Interacting with high-risk contract (score: " ++ toString s ++ ")"

/-- Calldata step, clamp and response assembly shared by the two contract
branches of `analyzeTransaction`. -/
def finishTransaction (scoreIn : ℤ) (warningsIn : List String) (analysisIn : TxAnalysis)
    (data : Option String) : TxAssessment :=
  let dataPresent : Bool :=
    match data with
    | some d => d != "" && d != "0x"
    | none => false
  let dataAdd : ℤ :=
    match data with
    | some d => if d != "" && d != "0x" then 10 + (if 100 < d.length then 5 else 0) else 0
    | none => 0
  let dataWarnings : List String :=
    match data with
    | some d =>
        if (d != "" && d != "0x") && 100 < d.length then ["Complex contract call detected"] else []
    | none => []
  let riskScore := clampScore (scoreIn + dataAdd)
  { riskScore := riskScore
    riskLevel := getRiskLevel riskScore
    warnings := warningsIn ++ dataWarnings
    analysis := { analysisIn with hasCalldata := if dataPresent then some true else none }
    shouldProceed := decide (riskScore < 70)
    recommendations :=
      if 70 ≤ riskScore then
        [ "Review transaction carefully",
          "Verify contract address",
          "Consider using a different wallet for this transaction" ]
      else
        [ "Transaction appears safe",
          "Always verify addresses before confirming" ] }

/-- Value step of `analyzeTransaction`: score contribution.  The source's
`valueEth > 1` and `valueEth > 0.1` comparisons are expressed at the wei
level; `one_lt_weiToEth_iff` and `tenth_lt_weiToEth_iff` prove the two
forms equivalent. -/
def txValueAdd (value : Option ℕ) : ℤ :=
  match value with
  | some v =>
      if 0 < v then
        (if 10 ^ 18 < v then 20 else if 10 ^ 17 < v then 10 else 0)
      else 0
  | none => 0

/-- Value step of `analyzeTransaction`: warnings contribution. -/
def txValueWarnings (value : Option ℕ) : List String :=
  match value with
  | some v => if 0 < v ∧ 10 ^ 18 < v then ["High value transaction"] else []
  | none => []

/-- Value step of `analyzeTransaction`: `analysis.valueRisk` field. -/
def txValueRisk (value : Option ℕ) : Option String :=
  match value with
  | some v =>
      if 0 < v then
        (if 10 ^ 18 < v then some "High"
         else if 10 ^ 17 < v then some "Medium" else none)
      else none
  | none => none

/-- Model of `analyzeTransaction` from riskScoring.js; `toCode` is the bytecode
fetched for the `to` address.  A failure of the inner `scoreContract`
call is rethrown wrapped, as in the source's catch block. -/
def analyzeTransaction (tx : TxData) (toCode : String) : Except String TxAssessment :=
  if toCode != "0x" then
    match scoreContract tx.toAddr toCode with
    | .error e => .error ("Failed to analyze transaction: " ++ e)
    | .ok contractScore =>
        .ok (finishTransaction
          (txValueAdd tx.value + 15 + max 0 (contractScore.score - 50))
          (txValueWarnings tx.value ++
            (if 70 < contractScore.score then [txContractWarnMsg contractScore.score] else []))
          { valueRisk := txValueRisk tx.value, isContractInteraction := some true,
            contractRisk := some contractScore, hasCalldata := none }
          tx.data)
  else
    .ok (finishTransaction (txValueAdd tx.value) (txValueWarnings tx.value)
      { valueRisk := txValueRisk tx.value, isContractInteraction := none,
        contractRisk := none, hasCalldata := none }
      tx.data)

/-! Delegation lifecycle: the in-memory store shared by the delegation
routes, the add / list / revoke express handlers, and the validation
helper and constants from backend/utils. -/

structure StoredDelegation where
  userAddress : String
  contractAddress : String
  expiresAt : ℕ
  description : String
  addedAt : ℕ
  isActive : Bool
  deriving DecidableEq

/-- Model of the `delegationsDB` JS `Map`: an association list in insertion order. -/
abbrev DelegationDB := List (String × StoredDelegation)

def mapHas (k : String) (db : DelegationDB) : Bool :=
  db.any fun p => p.1 == k

def mapGet (k : String) (db : DelegationDB) : Option StoredDelegation :=
  (db.find? fun p => p.1 == k).map fun p => p.2

/-- Model of JS `Map.set`: update in place when the key exists, else append. -/
def mapSet (k : String) (v : StoredDelegation) (db : DelegationDB) : DelegationDB :=
  if mapHas k db then db.map fun p => if p.1 == k then (k, v) else p
  else db ++ [(k, v)]

/-- Model of JS `Map.delete`. -/
def mapDelete (k : String) (db : DelegationDB) : DelegationDB :=
  db.filter fun p => p.1 != k

def MAX_DELEGATION_DURATION : ℤ := 30 * 24 * 60 * 60

def MIN_DELEGATION_DURATION : ℤ := 1 * 60 * 60

/-- Model of `validateDelegationParams` from backend/utils/helpers.js: the error
pushes happen in source order and all checks always run. -/
def validateDelegationParams (user contract : String) (expiresAt now : ℤ) : List String :=
  (if ¬ isAddress user then ["Invalid user address"] else []) ++
  (if ¬ isAddress contract then ["Invalid contract address"] else []) ++
  (if expiresAt ≤ now then ["Expiration must be in the future"] else []) ++
  (if now + MAX_DELEGATION_DURATION < expiresAt then
    ["Delegation duration cannot exceed " ++
      toString (MAX_DELEGATION_DURATION / (24 * 60 * 60)) ++ " days"]
   else [])

/-- Model of `getRiskLevel` from backend/utils/helpers.js, reading the
`RISK_THRESHOLDS` table of backend/utils/constants.js
(HIGH = 90, MEDIUM = 70, LOW = 30). -/
def helpersGetRiskLevel (score : ℤ) : String :=
  if 90 ≤ score then "High"
  else if 70 ≤ score then "Medium"
  else "Low"

/-- Steps of the add-delegation handler that touch collaborators, in
execution order. -/
inductive AddEvent where
  | localWrite (key : String) (record : StoredDelegation)
  | remoteAttempt (succeeded : Bool)
  | remoteSkipped
  deriving DecidableEq

structure AddDelegationView where
  contractAddr : String
  expiresAt : ℕ
  expiresIn : String
  status : String
  addedAt : ℕ
  deriving DecidableEq

structure AddResponse where
  success : Bool
  message : String
  delegation : Option AddDelegationView
  deriving DecidableEq

structure AddOutcome where
  response : AddResponse
  db : DelegationDB
  events : List AddEvent
  deriving DecidableEq

/-- The add-delegation POST handler.  `remoteAvailable` stands for the
contract handle and backend wallet both being configured,
`remoteWriteOk` for the on-chain `addDelegation` call (with its receipt
wait) not throwing; a missing request field is the empty string, as JS
falsiness of `undefined` and `""` coincide here.  `duration` is in hours,
as in the source. -/
def addDelegationRoute (userAddress contractAddress : String) (duration : ℕ)
    (description : String) (now : ℕ) (remoteAvailable remoteWriteOk : Bool)
    (db : DelegationDB) : AddOutcome :=
  if userAddress = "" ∨ contractAddress = "" then
    { response :=
        { success := false,
          message := "User address and contract address are required",
          delegation := none },
      db := db, events := [] }
  else
    let expiresAt := now + duration * 3600
    let key := userAddress ++ "-" ++ contractAddress
    let record : StoredDelegation :=
      { userAddress := userAddress
        contractAddress := contractAddress
        expiresAt := expiresAt
        description := if description = "" then "No description" else description
        addedAt := now
        isActive := true }
    { response :=
        { success := true,
          message := "Delegation added successfully",
          delegation := some
            { contractAddr := contractAddress, expiresAt := expiresAt,
              expiresIn := toString duration ++ "h", status := "Active", addedAt := now } },
      db := mapSet key record db,
      events := [AddEvent.localWrite key record] ++
        (if remoteAvailable then [AddEvent.remoteAttempt remoteWriteOk]
         else [AddEvent.remoteSkipped]) }

/-- One entry of the remote contract's `getActiveDelegations` result. -/
structure RemotePlan where
  contractAddr : String
  expiresAt : ℕ
  addedAt : ℕ
  description : String
  isActive : Bool
  deriving DecidableEq

structure ListView where
  contractAddr : String
  expiresAt : ℕ
  expiresIn : String
  status : String
  description : String
  addedAt : ℕ
  isActive : Option Bool
  deriving DecidableEq

def ZERO_ADDRESS : String := "0x0000000000000000000000000000000000000000"

/-- View derivation for a remote plan in the list handler: hours-and-minutes
countdown and a status computed from the clock alone. -/
def remotePlanView (now : ℕ) (plan : RemotePlan) : ListView :=
  let expiresIn : ℤ := (plan.expiresAt : ℤ) - now
  { contractAddr := plan.contractAddr
    expiresAt := plan.expiresAt
    expiresIn :=
      if 0 < expiresIn then
        toString (expiresIn / 3600) ++ "h " ++ toString (expiresIn % 3600 / 60) ++ "m"
      else "Expired"
    status := if 0 < expiresIn then "Active" else "Expired"
    description := plan.description
    addedAt := plan.addedAt
    isActive := some plan.isActive }

/-- View derivation for a local fallback entry in the list handler (the
memory branch formats hours only and carries no `isActive` field). -/
def localDelegationView (now : ℕ) (d : StoredDelegation) : ListView :=
  let expiresIn : ℤ := (d.expiresAt : ℤ) - now
  { contractAddr := d.contractAddress
    expiresAt := d.expiresAt
    expiresIn := if 0 < expiresIn then toString (expiresIn / 3600) ++ "h" else "Expired"
    status := if 0 < expiresIn then "Active" else "Expired"
    description := d.description
    addedAt := d.addedAt
    isActive := none }

structure ListResponse where
  success : Bool
  message : Option String
  delegations : List ListView
  source : String
  total : ℕ
  active : ℕ
  expired : ℕ
  deriving DecidableEq

structure ListOutcome where
  response : ListResponse
  db : DelegationDB
  deriving DecidableEq

/-- Remote step of the delegation list GET handler: the contract read
(when the handle is configured), mapped to views and filtered of
zero-address sentinel entries; the accumulator stays empty on failure. -/
def remoteStepFn (avail : Bool) (remoteRead : Except String (List RemotePlan))
    (now : ℕ) : List ListView × String :=
  if avail then
    match remoteRead with
    | .ok contractPlans =>
        ((contractPlans.map (remotePlanView now)).filter
          (fun d => d.contractAddr ≠ ZERO_ADDRESS), "contract")
    | .error _ => ([], "memory")
  else ([], "memory")

/-- Memory scan of the delegation list GET handler: local entries keyed
by a string starting with the user address, active flag set. -/
def memoryScanFn (userAddress : String) (db : DelegationDB) (now : ℕ) : List ListView :=
  (db.filter fun p => strStartsWith p.1 userAddress && p.2.isActive).map
    (fun p => localDelegationView now p.2)

/-- Fallback step of the delegation list GET handler: the memory scan
runs whenever the remote step left the accumulator empty — contract
absent, call failed, or a successful read whose filtered result is
empty. -/
def finalStepFn (userAddress : String) (db : DelegationDB) (now : ℕ)
    (remoteStep : List ListView × String) : List ListView × String :=
  if remoteStep.1.length = 0 then (memoryScanFn userAddress db now, "memory")
  else remoteStep

/-- The delegation list GET handler.  `remoteAvailable` is the contract
handle being configured; `remoteRead` the result of the on-chain
`getActiveDelegations` call. -/
def listDelegationsRoute (userAddress : String) (remoteAvailable : Bool)
    (remoteRead : Except String (List RemotePlan)) (db : DelegationDB)
    (now : ℕ) : ListOutcome :=
  if ¬ isAddress userAddress then
    { response :=
        { success := false, message := some "Invalid wallet address",
          delegations := [], source := "", total := 0, active := 0, expired := 0 },
      db := db }
  else
    let finalStep := finalStepFn userAddress db now (remoteStepFn remoteAvailable remoteRead now)
    { response :=
        { success := true, message := none
          delegations := finalStep.1
          source := finalStep.2
          total := finalStep.1.length
          active := (finalStep.1.filter fun d => d.status = "Active").length
          expired := (finalStep.1.filter fun d => d.status = "Expired").length },
      db := db }

structure RevokeResponse where
  success : Bool
  message : String
  contractRevokeSuccess : Bool
  note : String
  deriving DecidableEq

structure RevokeOutcome where
  response : RevokeResponse
  db : DelegationDB
  deriving DecidableEq

/-- The revoke POST handler.  `remoteAvailable` is the contract handle
being configured; `remoteRevoke` the on-chain `removeDelegation` call. -/
def revokeDelegationRoute (userAddress contractAddress : String)
    (remoteAvailable : Bool) (remoteRevoke : Except String Unit)
    (db : DelegationDB) : RevokeOutcome :=
  if userAddress = "" ∨ contractAddress = "" then
    { response :=
        { success := false,
          message := "User address and contract address are required",
          contractRevokeSuccess := false, note := "" },
      db := db }
  else
    let key := userAddress ++ "-" ++ contractAddress
    let hadDelegation := mapHas key db
    let db1 := if hadDelegation then mapDelete key db else db
    let remoteStep : Bool × String :=
      if remoteAvailable then
        match remoteRevoke with
        | .ok _ => (true, "Contract revocation executed")
        | .error e => (false, "Contract revocation failed: " ++ e)
      else (false, "Contract not available")
    { response :=
        { success := true,
          message := "Contract delegation revoked successfully",
          contractRevokeSuccess := remoteStep.1, note := remoteStep.2 },
      db := db1 }

/-! Shared helper lemmas. -/

theorem clampScore_nonneg (x : ℤ) : 0 ≤ clampScore x :=
  le_max_left 0 _

theorem clampScore_le_100 (x : ℤ) : clampScore x ≤ 100 :=
  max_le (by norm_num) (min_le_left _ _)

theorem clampScore_ge_of_le (x : ℤ) (h : 50 ≤ x) : 50 ≤ clampScore x :=
  le_max_of_le_right (le_min (by norm_num) h)

theorem weiToEth_eq_zero_iff (w : ℕ) : weiToEth w = 0 ↔ w = 0 := by
  unfold weiToEth
  rw [div_eq_zero_iff]
  norm_num

theorem ten_lt_weiToEth_iff (w : ℕ) : 10 < weiToEth w ↔ 10 * 10 ^ 18 < w := by
  unfold weiToEth
  rw [lt_div_iff₀ (by positivity)]
  exact_mod_cast Iff.rfl

theorem one_lt_weiToEth_iff (w : ℕ) : 1 < weiToEth w ↔ 10 ^ 18 < w := by
  unfold weiToEth
  rw [lt_div_iff₀ (by positivity)]
  norm_num

theorem tenth_lt_weiToEth_iff (w : ℕ) : 1 / 10 < weiToEth w ↔ 10 ^ 17 < w := by
  unfold weiToEth
  rw [div_lt_div_iff₀ (by norm_num) (by positivity)]
  have e : (10 : ℚ) ^ 18 = 10 ^ 17 * 10 := by norm_num
  constructor
  · intro h
    have h2 : (10 : ℚ) ^ 17 < (w : ℚ) := by nlinarith
    exact_mod_cast h2
  · intro h
    have h2 : (10 : ℚ) ^ 17 < (w : ℚ) := by exact_mod_cast h
    nlinarith

theorem analyzeContractCode_score_nonneg (code : String) :
    0 ≤ (analyzeContractCode code).score := by
  simp only [analyzeContractCode]
  split_ifs <;> norm_num

theorem getRiskLevel_cases (s : ℤ) :
    getRiskLevel s = "Low" ∨ getRiskLevel s = "Medium" ∨ getRiskLevel s = "High" := by
  unfold getRiskLevel
  split_ifs <;> simp

theorem getRiskLevel_ne_unknown (s : ℤ) : getRiskLevel s ≠ "Unknown" := by
  unfold getRiskLevel
  split_ifs <;> decide

theorem finishTransaction_bounds (s : ℤ) (w : List String) (a : TxAnalysis)
    (d : Option String) : 0 ≤ (finishTransaction s w a d).riskScore ∧
      (finishTransaction s w a d).riskScore ≤ 100 := by
  simp only [finishTransaction]
  exact ⟨clampScore_nonneg _, clampScore_le_100 _⟩

theorem finishTransaction_level (s : ℤ) (w : List String) (a : TxAnalysis)
    (d : Option String) :
    (finishTransaction s w a d).riskLevel =
      getRiskLevel (finishTransaction s w a d).riskScore := rfl

/-- Claim C1: for every valid address and every combination of fetched
chain facts, the scores returned by scoreWallet, scoreContract and
analyzeTransaction are integers in [0, 100] inclusive, however large the
intermediate additive factors are. -/
theorem scores_within_bounds :
    (∀ address facts r, scoreWallet address facts = .ok r →
      0 ≤ r.riskScore ∧ r.riskScore ≤ 100) ∧
    (∀ address code r, scoreContract address code = .ok r →
      0 ≤ r.score ∧ r.score ≤ 100) ∧
    (∀ tx toCode r, analyzeTransaction tx toCode = .ok r →
      0 ≤ r.riskScore ∧ r.riskScore ≤ 100) := by
  refine ⟨?_, ?_, ?_⟩
  · intro address facts r h
    simp only [scoreWallet] at h
    split at h
    · simp at h
    · simp only [Except.ok.injEq] at h
      subst h
      exact ⟨clampScore_nonneg _, clampScore_le_100 _⟩
  · intro address code r h
    simp only [scoreContract] at h
    split at h
    · simp at h
    · split at h <;> simp only [Except.ok.injEq] at h <;> subst h
      · exact ⟨le_refl 0, by norm_num⟩
      · exact ⟨clampScore_nonneg _, clampScore_le_100 _⟩
  · intro tx toCode r h
    simp only [analyzeTransaction] at h
    split at h
    · split at h
      · simp at h
      · simp only [Except.ok.injEq] at h
        subst h
        exact finishTransaction_bounds _ _ _ _
    · simp only [Except.ok.injEq] at h
      subst h
      exact finishTransaction_bounds _ _ _ _

/-- Witness for C1 at concrete inputs. -/
theorem scores_within_bounds_witness :
    (0 ≤ ((scoreWallet "0xaaaaaaaaaaaaaaaaaaaaaaaaaaaaaaaaaaaaaaaa"
        ⟨0, 0, "0x", []⟩).toOption.getD default).riskScore ∧
      ((scoreWallet "0xaaaaaaaaaaaaaaaaaaaaaaaaaaaaaaaaaaaaaaaa"
        ⟨0, 0, "0x", []⟩).toOption.getD default).riskScore ≤ 100) ∧
    (0 ≤ ((scoreContract "0x000000000000000000000000000000000000dead"
        "0xabc").toOption.getD default).score ∧
      ((scoreContract "0x000000000000000000000000000000000000dead"
        "0xabc").toOption.getD default).score ≤ 100) ∧
    (0 ≤ ((analyzeTransaction
        ⟨"0xaaaaaaaaaaaaaaaaaaaaaaaaaaaaaaaaaaaaaaaa",
          "0xbbbbbbbbbbbbbbbbbbbbbbbbbbbbbbbbbbbbbbbb",
          some (2 * 10 ^ 18), some "0x"⟩ "0x").toOption.getD default).riskScore ∧
      ((analyzeTransaction
        ⟨"0xaaaaaaaaaaaaaaaaaaaaaaaaaaaaaaaaaaaaaaaa",
          "0xbbbbbbbbbbbbbbbbbbbbbbbbbbbbbbbbbbbbbbbb",
          some (2 * 10 ^ 18), some "0x"⟩ "0x").toOption.getD default).riskScore ≤ 100) :=
  ⟨scores_within_bounds.1 "0xaaaaaaaaaaaaaaaaaaaaaaaaaaaaaaaaaaaaaaaa"
      ⟨0, 0, "0x", []⟩ _ (by rfl),
   scores_within_bounds.2.1 "0x000000000000000000000000000000000000dead" "0xabc" _ (by rfl),
   scores_within_bounds.2.2
      ⟨"0xaaaaaaaaaaaaaaaaaaaaaaaaaaaaaaaaaaaaaaaa",
        "0xbbbbbbbbbbbbbbbbbbbbbbbbbbbbbbbbbbbbbbbb",
        some (2 * 10 ^ 18), some "0x"⟩ "0x" _ (by rfl)⟩

/-- Claim C7: every assessment's level is exactly getRiskLevel of its
score (for scoreContract outside the score-0 "Unknown" case), and
getRiskLevel is boundary-exact: 30 is Medium, 70 is High, 29 is Low,
69 is Medium. -/
theorem risk_level_boundary_exact :
    getRiskLevel 30 = "Medium" ∧ getRiskLevel 70 = "High" ∧
    getRiskLevel 29 = "Low" ∧ getRiskLevel 69 = "Medium" ∧
    (∀ address facts r, scoreWallet address facts = .ok r →
      r.riskLevel = getRiskLevel r.riskScore) ∧
    (∀ address code r, scoreContract address code = .ok r →
      (r.riskLevel = "Unknown" ∧ r.score = 0) ∨ r.riskLevel = getRiskLevel r.score) ∧
    (∀ tx toCode r, analyzeTransaction tx toCode = .ok r →
      r.riskLevel = getRiskLevel r.riskScore) := by
  refine ⟨by decide, by decide, by decide, by decide, ?_, ?_, ?_⟩
  · intro address facts r h
    simp only [scoreWallet] at h
    split at h
    · simp at h
    · simp only [Except.ok.injEq] at h
      subst h
      rfl
  · intro address code r h
    simp only [scoreContract] at h
    split at h
    · simp at h
    · split at h <;> simp only [Except.ok.injEq] at h <;> subst h
      · exact Or.inl ⟨rfl, rfl⟩
      · exact Or.inr rfl
  · intro tx toCode r h
    simp only [analyzeTransaction] at h
    split at h
    · split at h
      · simp at h
      · simp only [Except.ok.injEq] at h
        subst h
        exact finishTransaction_level _ _ _ _
    · simp only [Except.ok.injEq] at h
      subst h
      exact finishTransaction_level _ _ _ _

/-- Witness for C7 at concrete inputs. -/
theorem risk_level_boundary_exact_witness :
    ((scoreWallet "0xaaaaaaaaaaaaaaaaaaaaaaaaaaaaaaaaaaaaaaaa"
        ⟨0, 0, "0x", []⟩).toOption.getD default).riskLevel =
      getRiskLevel ((scoreWallet "0xaaaaaaaaaaaaaaaaaaaaaaaaaaaaaaaaaaaaaaaa"
        ⟨0, 0, "0x", []⟩).toOption.getD default).riskScore ∧
    ((((scoreContract "0x000000000000000000000000000000000000dead"
        "0xabc").toOption.getD default).riskLevel = "Unknown" ∧
      ((scoreContract "0x000000000000000000000000000000000000dead"
        "0xabc").toOption.getD default).score = 0) ∨
    ((scoreContract "0x000000000000000000000000000000000000dead"
        "0xabc").toOption.getD default).riskLevel =
      getRiskLevel ((scoreContract "0x000000000000000000000000000000000000dead"
        "0xabc").toOption.getD default).score) :=
  ⟨risk_level_boundary_exact.2.2.2.2.1 "0xaaaaaaaaaaaaaaaaaaaaaaaaaaaaaaaaaaaaaaaa"
      ⟨0, 0, "0x", []⟩ _ (by rfl),
   risk_level_boundary_exact.2.2.2.2.2.1 "0x000000000000000000000000000000000000dead"
      "0xabc" _ (by rfl)⟩

/-- Claim C2 counterexample: the zero-bytecode early return of
scoreContract runs before the known-malicious check, so a listed address
with empty bytecode scores 0, not 100. -/
theorem known_risky_empty_code_score_zero :
    "0x000000000000000000000000000000000000dead" ∈ KNOWN_RISKY_CONTRACTS ∧
    (scoreContract "0x000000000000000000000000000000000000dead" "0x").toOption.map
      (fun r => r.score) = some 0 ∧
    (scoreContract "0x000000000000000000000000000000000000dead" "0x").toOption.map
      (fun r => r.score) ≠ some 100 := by
  refine ⟨by decide, by rfl, ?_⟩
  intro h
  rw [show (scoreContract "0x000000000000000000000000000000000000dead"
      "0x").toOption.map (fun r => r.score) = some 0 from rfl] at h
  simp at h

/-- Claim C2 (amended): for every address whose lowercased form is in the
static known-malicious list and whose fetched bytecode is non-empty,
scoreContract returns score exactly 100 regardless of the bytecode
contents. -/
theorem known_risky_nonempty_code_forces_100 :
    ∀ address code r, strToLower address ∈ KNOWN_RISKY_CONTRACTS → code ≠ "0x" →
      scoreContract address code = .ok r → r.score = 100 := by
  intro address code r hmem hcode h
  simp only [scoreContract] at h
  split at h
  · simp at h
  · split at h
    · rename_i hcond
      exfalso
      rcases hcond with h1 | h1
      · exact hcode (by simpa using h1)
      · exact hcode h1
    · simp only [Except.ok.injEq] at h
      subst h
      rfl

/-- Witness for C2's amended theorem at a concrete input. -/
theorem known_risky_nonempty_code_forces_100_witness :
    strToLower "0x000000000000000000000000000000000000dead" ∈ KNOWN_RISKY_CONTRACTS ∧
    "0xdeadbeef" ≠ "0x" ∧
    ((scoreContract "0x000000000000000000000000000000000000dead"
      "0xdeadbeef").toOption.getD default).score = 100 :=
  ⟨by decide, by decide,
   known_risky_nonempty_code_forces_100 "0x000000000000000000000000000000000000dead"
     "0xdeadbeef" _ (by decide) (by decide) (by rfl)⟩

/-- Claim C8: scoreContract returns score 0 with level Unknown exactly
when the fetched bytecode is empty; with non-empty bytecode the score is
at least the base 50 and the level is one of the three ordinary ones. -/
theorem unknown_level_iff_empty_code :
    ∀ address code r, scoreContract address code = .ok r →
      ((r.score = 0 ∧ r.riskLevel = "Unknown") ↔ code = "0x") ∧
      (code ≠ "0x" → 50 ≤ r.score ∧
        (r.riskLevel = "Low" ∨ r.riskLevel = "Medium" ∨ r.riskLevel = "High")) := by
  intro address code r h
  simp only [scoreContract] at h
  split at h
  · simp at h
  · split at h
    · rename_i hcond
      have hcode : code = "0x" := by
        rcases hcond with h1 | h1
        · simpa using h1
        · exact h1
      simp only [Except.ok.injEq] at h
      subst h
      exact ⟨⟨fun _ => hcode, fun _ => ⟨rfl, rfl⟩⟩, fun hne => absurd hcode hne⟩
    · rename_i hcond
      have hcode : code ≠ "0x" := fun hc => hcond (Or.inr hc)
      simp only [Except.ok.injEq] at h
      subst h
      have h50 : (50 : ℤ) ≤ clampScore
          (if strToLower address ∈ KNOWN_RISKY_CONTRACTS then 100
           else match CONTRACT_REPUTATION (strToLower address) with
             | some reputation => max (50 + (analyzeContractCode code).score) reputation.risk
             | none => 50 + (analyzeContractCode code).score) := by
        apply clampScore_ge_of_le
        have hnn := analyzeContractCode_score_nonneg code
        split_ifs
        · norm_num
        · split
          · exact le_max_of_le_left (by linarith)
          · linarith
      refine ⟨⟨fun hs0 => ?_, fun hc => absurd hc hcode⟩, fun _ => ⟨h50, getRiskLevel_cases _⟩⟩
      exfalso
      have hs : (50 : ℤ) ≤ 0 := by
        calc (50 : ℤ) ≤ _ := h50
        _ = 0 := hs0.1
      norm_num at hs

/-- Witness for C8 at concrete inputs (one empty-bytecode, one not). -/
theorem unknown_level_iff_empty_code_witness :
    ((((scoreContract "0xbbbbbbbbbbbbbbbbbbbbbbbbbbbbbbbbbbbbbbbb"
        "0x").toOption.getD default).score = 0 ∧
      (((scoreContract "0xbbbbbbbbbbbbbbbbbbbbbbbbbbbbbbbbbbbbbbbb"
        "0x").toOption.getD default).riskLevel = "Unknown")) ↔ ("0x" : String) = "0x") ∧
    (("0xdeadbeef" : String) ≠ "0x" →
      50 ≤ ((scoreContract "0xbbbbbbbbbbbbbbbbbbbbbbbbbbbbbbbbbbbbbbbb"
        "0xdeadbeef").toOption.getD default).score ∧
      (((scoreContract "0xbbbbbbbbbbbbbbbbbbbbbbbbbbbbbbbbbbbbbbbb"
          "0xdeadbeef").toOption.getD default).riskLevel = "Low" ∨
        ((scoreContract "0xbbbbbbbbbbbbbbbbbbbbbbbbbbbbbbbbbbbbbbbb"
          "0xdeadbeef").toOption.getD default).riskLevel = "Medium" ∨
        ((scoreContract "0xbbbbbbbbbbbbbbbbbbbbbbbbbbbbbbbbbbbbbbbb"
          "0xdeadbeef").toOption.getD default).riskLevel = "High")) :=
  ⟨(unknown_level_iff_empty_code "0xbbbbbbbbbbbbbbbbbbbbbbbbbbbbbbbbbbbbbbbb"
      "0x" _ (by rfl)).1,
   (unknown_level_iff_empty_code "0xbbbbbbbbbbbbbbbbbbbbbbbbbbbbbbbbbbbbbbbb"
      "0xdeadbeef" _ (by rfl)).2⟩

theorem riskyFactorMsg_length (n : ℕ) : 32 ≤ (riskyFactorMsg n).length := by
  unfold riskyFactorMsg
  rw [String.length_append, String.length_append]
  have h1 : ("Interacted with " : String).length = 16 := rfl
  have h2 : (" risky contracts" : String).length = 16 := rfl
  omega

theorem riskyFactorMsg_ne_zero_balance (n : ℕ) : riskyFactorMsg n ≠ "Zero balance" := by
  intro h
  have hl := riskyFactorMsg_length n
  rw [h] at hl
  revert hl
  decide

theorem riskyFactorMsg_ne_high_balance (n : ℕ) : riskyFactorMsg n ≠ "High balance" := by
  intro h
  have hl := riskyFactorMsg_length n
  rw [h] at hl
  revert hl
  decide

theorem riskyFactorMsg_ne_no_hist (n : ℕ) : riskyFactorMsg n ≠ "No transaction history" := by
  intro h
  have hl := riskyFactorMsg_length n
  rw [h] at hl
  revert hl
  decide

theorem riskyFactorMsg_ne_low_count (n : ℕ) : riskyFactorMsg n ≠ "Low transaction count" := by
  intro h
  have hl := riskyFactorMsg_length n
  rw [h] at hl
  revert hl
  decide

theorem zero_balance_ne_riskyFactorMsg (n : ℕ) : "Zero balance" ≠ riskyFactorMsg n :=
  fun h => riskyFactorMsg_ne_zero_balance n h.symm

theorem high_balance_ne_riskyFactorMsg (n : ℕ) : "High balance" ≠ riskyFactorMsg n :=
  fun h => riskyFactorMsg_ne_high_balance n h.symm

theorem no_hist_ne_riskyFactorMsg (n : ℕ) : "No transaction history" ≠ riskyFactorMsg n :=
  fun h => riskyFactorMsg_ne_no_hist n h.symm

theorem low_count_ne_riskyFactorMsg (n : ℕ) : "Low transaction count" ≠ riskyFactorMsg n :=
  fun h => riskyFactorMsg_ne_low_count n h.symm

theorem zero_balance_not_code_factor (code : String) :
    "Zero balance" ∉ (analyzeContractCode code).factors := by
  simp only [analyzeContractCode]
  split_ifs <;> simp

theorem high_balance_not_code_factor (code : String) :
    "High balance" ∉ (analyzeContractCode code).factors := by
  simp only [analyzeContractCode]
  split_ifs <;> simp

theorem no_hist_not_code_factor (code : String) :
    "No transaction history" ∉ (analyzeContractCode code).factors := by
  simp only [analyzeContractCode]
  split_ifs <;> simp

theorem low_count_not_code_factor (code : String) :
    "Low transaction count" ∉ (analyzeContractCode code).factors := by
  simp only [analyzeContractCode]
  split_ifs <;> simp

/-- Claim C10 (implicit): within one scoreWallet assessment the two
balance factors are mutually exclusive and the two history factors are
mutually exclusive, because each pair sits in one if / else-if chain. -/
theorem wallet_factor_pairs_exclusive :
    ∀ address facts r, scoreWallet address facts = .ok r →
      ¬ ("Zero balance" ∈ r.factors ∧ "High balance" ∈ r.factors) ∧
      ¬ ("No transaction history" ∈ r.factors ∧ "Low transaction count" ∈ r.factors) := by
  intro address facts r h
  simp only [scoreWallet] at h
  split at h
  · simp at h
  · simp only [Except.ok.injEq] at h
    subst h
    constructor <;> rintro ⟨h1, h2⟩ <;>
      simp only [List.mem_append] at h1 h2 <;>
      split_ifs at h1 h2 <;>
      simp_all [riskyFactorMsg_ne_zero_balance, riskyFactorMsg_ne_high_balance,
        riskyFactorMsg_ne_no_hist, riskyFactorMsg_ne_low_count,
        zero_balance_ne_riskyFactorMsg, high_balance_ne_riskyFactorMsg,
        no_hist_ne_riskyFactorMsg, low_count_ne_riskyFactorMsg,
        zero_balance_not_code_factor, high_balance_not_code_factor,
        no_hist_not_code_factor, low_count_not_code_factor]

/-- Witness for C10 at a concrete input. -/
theorem wallet_factor_pairs_exclusive_witness :
    ¬ ("Zero balance" ∈ ((scoreWallet "0xaaaaaaaaaaaaaaaaaaaaaaaaaaaaaaaaaaaaaaaa"
        ⟨0, 0, "0x", []⟩).toOption.getD default).factors ∧
       "High balance" ∈ ((scoreWallet "0xaaaaaaaaaaaaaaaaaaaaaaaaaaaaaaaaaaaaaaaa"
        ⟨0, 0, "0x", []⟩).toOption.getD default).factors) ∧
    ¬ ("No transaction history" ∈ ((scoreWallet "0xaaaaaaaaaaaaaaaaaaaaaaaaaaaaaaaaaaaaaaaa"
        ⟨0, 0, "0x", []⟩).toOption.getD default).factors ∧
       "Low transaction count" ∈ ((scoreWallet "0xaaaaaaaaaaaaaaaaaaaaaaaaaaaaaaaaaaaaaaaa"
        ⟨0, 0, "0x", []⟩).toOption.getD default).factors) :=
  wallet_factor_pairs_exclusive "0xaaaaaaaaaaaaaaaaaaaaaaaaaaaaaaaaaaaaaaaa"
    ⟨0, 0, "0x", []⟩ _ (by rfl)

/-! Helper lemmas for the delegation store. -/

theorem mapHas_mapDelete (k : String) (db : DelegationDB) :
    mapHas k (mapDelete k db) = false := by
  simp only [mapHas, mapDelete, List.any_eq_false, List.mem_filter]
  rintro p ⟨_, hne⟩
  simpa using hne

theorem mapGet_append_self (k : String) (v : StoredDelegation) (db : DelegationDB)
    (h : mapHas k db = false) : mapGet k (db ++ [(k, v)]) = some v := by
  induction db with
  | nil => simp [mapGet, List.find?]
  | cons hd tl ih =>
      simp only [mapHas, List.any_cons, Bool.or_eq_false_iff] at h
      obtain ⟨h1, h2⟩ := h
      simp only [List.cons_append, mapGet, List.find?, h1]
      exact ih h2

theorem mapGet_map_replace (k : String) (v : StoredDelegation) (db : DelegationDB)
    (h : mapHas k db = true) :
    mapGet k (db.map fun p => if p.1 == k then (k, v) else p) = some v := by
  induction db with
  | nil => simp [mapHas] at h
  | cons hd tl ih =>
      by_cases hk : (hd.1 == k) = true
      · simp [mapGet, List.find?, hk]
      · have hk2 : (hd.1 == k) = false := by simpa using hk
        have h2 : mapHas k tl = true := by simpa [mapHas, hk2] using h
        simpa [mapGet, List.find?, hk2] using ih h2

theorem mapGet_mapSet_self (k : String) (v : StoredDelegation) (db : DelegationDB) :
    mapGet k (mapSet k v db) = some v := by
  unfold mapSet
  split
  · rename_i hhas
    exact mapGet_map_replace k v db hhas
  · rename_i hhas
    exact mapGet_append_self k v db (by simpa using hhas)

/-- Claim C5: addDelegation writes the record to the local store before
the remote write is attempted (it is the first event), and neither a
skipped nor a failed remote write removes the local record or turns the
response into a failure; the caller always receives success together
with the created delegation view. -/
theorem add_writes_local_first_and_succeeds :
    ∀ u c dur descr now avail rOk db, u ≠ "" → c ≠ "" →
      (addDelegationRoute u c dur descr now avail rOk db).response.success = true ∧
      (addDelegationRoute u c dur descr now avail rOk db).response.delegation =
        some { contractAddr := c, expiresAt := now + dur * 3600,
               expiresIn := toString dur ++ "h", status := "Active", addedAt := now } ∧
      mapGet (u ++ "-" ++ c) (addDelegationRoute u c dur descr now avail rOk db).db =
        some { userAddress := u, contractAddress := c, expiresAt := now + dur * 3600,
               description := if descr = "" then "No description" else descr,
               addedAt := now, isActive := true } ∧
      (addDelegationRoute u c dur descr now avail rOk db).events.head? =
        some (AddEvent.localWrite (u ++ "-" ++ c)
          { userAddress := u, contractAddress := c, expiresAt := now + dur * 3600,
            description := if descr = "" then "No description" else descr,
            addedAt := now, isActive := true }) ∧
      (addDelegationRoute u c dur descr now avail rOk db).db =
        (addDelegationRoute u c dur descr now avail (!rOk) db).db := by
  intro u c dur descr now avail rOk db hu hc
  have hne : ¬ (u = "" ∨ c = "") := by
    rintro (h | h)
    · exact hu h
    · exact hc h
  unfold addDelegationRoute
  rw [if_neg hne]
  refine ⟨rfl, rfl, mapGet_mapSet_self _ _ _, rfl, ?_⟩
  rw [if_neg hne]

/-- Witness for C5 at concrete inputs. -/
theorem add_writes_local_first_and_succeeds_witness :
    (addDelegationRoute "0xaaaaaaaaaaaaaaaaaaaaaaaaaaaaaaaaaaaaaaaa"
        "0xbbbbbbbbbbbbbbbbbbbbbbbbbbbbbbbbbbbbbbbb" 1 "test" 1000 true false
        []).response.success = true ∧
    (addDelegationRoute "0xaaaaaaaaaaaaaaaaaaaaaaaaaaaaaaaaaaaaaaaa"
        "0xbbbbbbbbbbbbbbbbbbbbbbbbbbbbbbbbbbbbbbbb" 1 "test" 1000 true false
        []).response.delegation =
      some { contractAddr := "0xbbbbbbbbbbbbbbbbbbbbbbbbbbbbbbbbbbbbbbbb",
             expiresAt := 1000 + 1 * 3600, expiresIn := toString 1 ++ "h",
             status := "Active", addedAt := 1000 } ∧
    mapGet ("0xaaaaaaaaaaaaaaaaaaaaaaaaaaaaaaaaaaaaaaaa" ++ "-" ++
        "0xbbbbbbbbbbbbbbbbbbbbbbbbbbbbbbbbbbbbbbbb")
      (addDelegationRoute "0xaaaaaaaaaaaaaaaaaaaaaaaaaaaaaaaaaaaaaaaa"
        "0xbbbbbbbbbbbbbbbbbbbbbbbbbbbbbbbbbbbbbbbb" 1 "test" 1000 true false
        []).db =
      some { userAddress := "0xaaaaaaaaaaaaaaaaaaaaaaaaaaaaaaaaaaaaaaaa",
             contractAddress := "0xbbbbbbbbbbbbbbbbbbbbbbbbbbbbbbbbbbbbbbbb",
             expiresAt := 1000 + 1 * 3600,
             description := if ("test" : String) = "" then "No description" else "test",
             addedAt := 1000, isActive := true } := by
  have h := add_writes_local_first_and_succeeds "0xaaaaaaaaaaaaaaaaaaaaaaaaaaaaaaaaaaaaaaaa"
    "0xbbbbbbbbbbbbbbbbbbbbbbbbbbbbbbbbbbbbbbbb" 1 "test" 1000 true false
    [] (by decide) (by decide)
  exact ⟨h.1, h.2.1, h.2.2.1⟩

theorem revokeRoute_success (u c : String) (avail : Bool) (rem : Except String Unit)
    (db : DelegationDB) (hne : ¬ (u = "" ∨ c = "")) :
    (revokeDelegationRoute u c avail rem db).response.success = true := by
  unfold revokeDelegationRoute
  rw [if_neg hne]

theorem revokeRoute_db (u c : String) (avail : Bool) (rem : Except String Unit)
    (db : DelegationDB) (hne : ¬ (u = "" ∨ c = "")) :
    (revokeDelegationRoute u c avail rem db).db =
      if mapHas (u ++ "-" ++ c) db then mapDelete (u ++ "-" ++ c) db else db := by
  unfold revokeDelegationRoute
  rw [if_neg hne]

/-- Claim C9: revoking twice for the same (user, contract) pair succeeds
both times; the first call leaves no local entry under the key, so the
second call is a no-op on the store and still reports success. -/
theorem revoke_idempotent :
    ∀ u c avail1 rem1 avail2 rem2 db, u ≠ "" → c ≠ "" →
      (revokeDelegationRoute u c avail1 rem1 db).response.success = true ∧
      mapHas (u ++ "-" ++ c) (revokeDelegationRoute u c avail1 rem1 db).db = false ∧
      (revokeDelegationRoute u c avail2 rem2
        (revokeDelegationRoute u c avail1 rem1 db).db).response.success = true ∧
      (revokeDelegationRoute u c avail2 rem2
        (revokeDelegationRoute u c avail1 rem1 db).db).db =
        (revokeDelegationRoute u c avail1 rem1 db).db := by
  intro u c a1 r1 a2 r2 db hu hc
  have hne : ¬ (u = "" ∨ c = "") := by
    rintro (h | h)
    · exact hu h
    · exact hc h
  have habs : mapHas (u ++ "-" ++ c) (revokeDelegationRoute u c a1 r1 db).db = false := by
    rw [revokeRoute_db u c a1 r1 db hne]
    by_cases hh : mapHas (u ++ "-" ++ c) db
    · rw [if_pos hh]
      exact mapHas_mapDelete _ _
    · rw [if_neg hh]
      simpa using hh
  refine ⟨revokeRoute_success u c a1 r1 db hne, habs,
    revokeRoute_success u c a2 r2 _ hne, ?_⟩
  rw [revokeRoute_db u c a2 r2 _ hne, habs]
  simp

/-- Witness for C9 at concrete inputs. -/
theorem revoke_idempotent_witness :
    (revokeDelegationRoute "0xaaaaaaaaaaaaaaaaaaaaaaaaaaaaaaaaaaaaaaaa"
        "0xbbbbbbbbbbbbbbbbbbbbbbbbbbbbbbbbbbbbbbbb" true (.error "down")
        [("0xaaaaaaaaaaaaaaaaaaaaaaaaaaaaaaaaaaaaaaaa" ++ "-" ++
            "0xbbbbbbbbbbbbbbbbbbbbbbbbbbbbbbbbbbbbbbbb",
          { userAddress := "0xaaaaaaaaaaaaaaaaaaaaaaaaaaaaaaaaaaaaaaaa",
            contractAddress := "0xbbbbbbbbbbbbbbbbbbbbbbbbbbbbbbbbbbbbbbbb",
            expiresAt := 7200, description := "test", addedAt := 0,
            isActive := true })]).response.success = true ∧
    (revokeDelegationRoute "0xaaaaaaaaaaaaaaaaaaaaaaaaaaaaaaaaaaaaaaaa"
        "0xbbbbbbbbbbbbbbbbbbbbbbbbbbbbbbbbbbbbbbbb" false (.ok ())
        (revokeDelegationRoute "0xaaaaaaaaaaaaaaaaaaaaaaaaaaaaaaaaaaaaaaaa"
          "0xbbbbbbbbbbbbbbbbbbbbbbbbbbbbbbbbbbbbbbbb" true (.error "down")
          [("0xaaaaaaaaaaaaaaaaaaaaaaaaaaaaaaaaaaaaaaaa" ++ "-" ++
              "0xbbbbbbbbbbbbbbbbbbbbbbbbbbbbbbbbbbbbbbbb",
            { userAddress := "0xaaaaaaaaaaaaaaaaaaaaaaaaaaaaaaaaaaaaaaaa",
              contractAddress := "0xbbbbbbbbbbbbbbbbbbbbbbbbbbbbbbbbbbbbbbbb",
              expiresAt := 7200, description := "test", addedAt := 0,
              isActive := true })]).db).response.success = true := by
  have h := revoke_idempotent "0xaaaaaaaaaaaaaaaaaaaaaaaaaaaaaaaaaaaaaaaa"
    "0xbbbbbbbbbbbbbbbbbbbbbbbbbbbbbbbbbbbbbbbb" true (.error "down") false (.ok ())
    [("0xaaaaaaaaaaaaaaaaaaaaaaaaaaaaaaaaaaaaaaaa" ++ "-" ++
        "0xbbbbbbbbbbbbbbbbbbbbbbbbbbbbbbbbbbbbbbbb",
      { userAddress := "0xaaaaaaaaaaaaaaaaaaaaaaaaaaaaaaaaaaaaaaaa",
        contractAddress := "0xbbbbbbbbbbbbbbbbbbbbbbbbbbbbbbbbbbbbbbbb",
        expiresAt := 7200, description := "test", addedAt := 0,
        isActive := true })] (by decide) (by decide)
  exact ⟨h.1, h.2.2.1⟩

theorem listRoute_valid_eq (u : String) (avail : Bool)
    (rr : Except String (List RemotePlan)) (db : DelegationDB) (now : ℕ)
    (hu : isAddress u = true) :
    listDelegationsRoute u avail rr db now =
      { response :=
          { success := true, message := none,
            delegations := (finalStepFn u db now (remoteStepFn avail rr now)).1,
            source := (finalStepFn u db now (remoteStepFn avail rr now)).2,
            total := (finalStepFn u db now (remoteStepFn avail rr now)).1.length,
            active := ((finalStepFn u db now (remoteStepFn avail rr now)).1.filter
              fun d => d.status = "Active").length,
            expired := ((finalStepFn u db now (remoteStepFn avail rr now)).1.filter
              fun d => d.status = "Expired").length },
        db := db } := by
  unfold listDelegationsRoute
  rw [if_neg (by simp [hu])]

theorem remotePlanView_status (now : ℕ) (plan : RemotePlan) :
    ((remotePlanView now plan).status = "Active" ↔ now < plan.expiresAt) ∧
    ((remotePlanView now plan).status = "Expired" ↔ ¬ now < plan.expiresAt) := by
  have hiff : (0 < (plan.expiresAt : ℤ) - now) ↔ now < plan.expiresAt := by omega
  unfold remotePlanView
  by_cases h : now < plan.expiresAt
  · simp [hiff, h]
  · simp [hiff, h]

theorem localDelegationView_status (now : ℕ) (d : StoredDelegation) :
    ((localDelegationView now d).status = "Active" ↔ now < d.expiresAt) ∧
    ((localDelegationView now d).status = "Expired" ↔ ¬ now < d.expiresAt) := by
  have hiff : (0 < (d.expiresAt : ℤ) - now) ↔ now < d.expiresAt := by omega
  unfold localDelegationView
  by_cases h : now < d.expiresAt
  · simp [hiff, h]
  · simp [hiff, h]

/-- Claim C3 counterexample: a successful remote read that returns the
empty list does not win — the handler substitutes the local fallback
entries whenever the filtered remote result is empty. -/
theorem remote_empty_falls_back_to_local :
    (listDelegationsRoute "0xaaaaaaaaaaaaaaaaaaaaaaaaaaaaaaaaaaaaaaaa" true (.ok [])
        [("0xaaaaaaaaaaaaaaaaaaaaaaaaaaaaaaaaaaaaaaaa" ++ "-" ++
            "0xbbbbbbbbbbbbbbbbbbbbbbbbbbbbbbbbbbbbbbbb",
          { userAddress := "0xaaaaaaaaaaaaaaaaaaaaaaaaaaaaaaaaaaaaaaaa",
            contractAddress := "0xbbbbbbbbbbbbbbbbbbbbbbbbbbbbbbbbbbbbbbbb",
            expiresAt := 7200, description := "test", addedAt := 0, isActive := true })]
        0).response.delegations =
      [localDelegationView 0
        { userAddress := "0xaaaaaaaaaaaaaaaaaaaaaaaaaaaaaaaaaaaaaaaa",
          contractAddress := "0xbbbbbbbbbbbbbbbbbbbbbbbbbbbbbbbbbbbbbbbb",
          expiresAt := 7200, description := "test", addedAt := 0, isActive := true }] ∧
    (listDelegationsRoute "0xaaaaaaaaaaaaaaaaaaaaaaaaaaaaaaaaaaaaaaaa" true (.ok [])
        [("0xaaaaaaaaaaaaaaaaaaaaaaaaaaaaaaaaaaaaaaaa" ++ "-" ++
            "0xbbbbbbbbbbbbbbbbbbbbbbbbbbbbbbbbbbbbbbbb",
          { userAddress := "0xaaaaaaaaaaaaaaaaaaaaaaaaaaaaaaaaaaaaaaaa",
            contractAddress := "0xbbbbbbbbbbbbbbbbbbbbbbbbbbbbbbbbbbbbbbbb",
            expiresAt := 7200, description := "test", addedAt := 0, isActive := true })]
        0).response.source = "memory" ∧
    (listDelegationsRoute "0xaaaaaaaaaaaaaaaaaaaaaaaaaaaaaaaaaaaaaaaa" true (.ok [])
        [("0xaaaaaaaaaaaaaaaaaaaaaaaaaaaaaaaaaaaaaaaa" ++ "-" ++
            "0xbbbbbbbbbbbbbbbbbbbbbbbbbbbbbbbbbbbbbbbb",
          { userAddress := "0xaaaaaaaaaaaaaaaaaaaaaaaaaaaaaaaaaaaaaaaa",
            contractAddress := "0xbbbbbbbbbbbbbbbbbbbbbbbbbbbbbbbbbbbbbbbb",
            expiresAt := 7200, description := "test", addedAt := 0, isActive := true })]
        0).response.delegations ≠ [] := by
  refine ⟨by rfl, by rfl, by decide⟩

/-- Claim C3 (amended): a successful remote read whose filtered result is
non-empty is used exclusively, with no local entries merged in; the local
fallback scan is consulted when the remote read fails, and also whenever
the filtered remote result is empty. -/
theorem list_delegations_source_policy :
    ∀ u plans e db now, isAddress u = true →
      ((((plans.map (remotePlanView now)).filter
          (fun d => d.contractAddr ≠ ZERO_ADDRESS)) ≠ [] →
        (listDelegationsRoute u true (.ok plans) db now).response.delegations =
          (plans.map (remotePlanView now)).filter (fun d => d.contractAddr ≠ ZERO_ADDRESS) ∧
        (listDelegationsRoute u true (.ok plans) db now).response.source = "contract") ∧
      ((listDelegationsRoute u true (.error e) db now).response.delegations =
          (db.filter fun p => strStartsWith p.1 u && p.2.isActive).map
            (fun p => localDelegationView now p.2) ∧
        (listDelegationsRoute u true (.error e) db now).response.source = "memory") ∧
      (((plans.map (remotePlanView now)).filter
          (fun d => d.contractAddr ≠ ZERO_ADDRESS)) = [] →
        (listDelegationsRoute u true (.ok plans) db now).response.delegations =
          (db.filter fun p => strStartsWith p.1 u && p.2.isActive).map
            (fun p => localDelegationView now p.2) ∧
        (listDelegationsRoute u true (.ok plans) db now).response.source = "memory")) := by
  intro u plans e db now hu
  refine ⟨fun hfil => ?_, ?_, fun hfil => ?_⟩
  · have hlen : ¬ ((remoteStepFn true (.ok plans) now).1.length = 0) := by
      simpa [remoteStepFn, List.length_eq_zero] using hfil
    rw [listRoute_valid_eq u true (.ok plans) db now hu]
    unfold finalStepFn
    rw [if_neg hlen]
    exact ⟨rfl, rfl⟩
  · have hlen : (remoteStepFn true (.error e) now).1.length = 0 := rfl
    rw [listRoute_valid_eq u true (.error e) db now hu]
    unfold finalStepFn
    rw [if_pos hlen]
    exact ⟨rfl, rfl⟩
  · have hlen : (remoteStepFn true (.ok plans) now).1.length = 0 := by
      show ((plans.map (remotePlanView now)).filter
        (fun d => d.contractAddr ≠ ZERO_ADDRESS)).length = 0
      rw [hfil]
      rfl
    rw [listRoute_valid_eq u true (.ok plans) db now hu]
    unfold finalStepFn
    rw [if_pos hlen]
    exact ⟨rfl, rfl⟩

/-- Witness for C3's amended theorem at concrete inputs. -/
theorem list_delegations_source_policy_witness :
    (listDelegationsRoute "0xaaaaaaaaaaaaaaaaaaaaaaaaaaaaaaaaaaaaaaaa" true
        (.ok [{ contractAddr := "0xcccccccccccccccccccccccccccccccccccccccc",
                expiresAt := 3700, addedAt := 0, description := "p", isActive := true }])
        [] 0).response.delegations =
      ([{ contractAddr := "0xcccccccccccccccccccccccccccccccccccccccc",
          expiresAt := 3700, addedAt := 0, description := "p",
          isActive := true }].map (remotePlanView 0)).filter
        (fun d => d.contractAddr ≠ ZERO_ADDRESS) ∧
    (listDelegationsRoute "0xaaaaaaaaaaaaaaaaaaaaaaaaaaaaaaaaaaaaaaaa" true
        (.ok [{ contractAddr := "0xcccccccccccccccccccccccccccccccccccccccc",
                expiresAt := 3700, addedAt := 0, description := "p", isActive := true }])
        [] 0).response.source = "contract" :=
  (list_delegations_source_policy "0xaaaaaaaaaaaaaaaaaaaaaaaaaaaaaaaaaaaaaaaa"
    [{ contractAddr := "0xcccccccccccccccccccccccccccccccccccccccc",
       expiresAt := 3700, addedAt := 0, description := "p", isActive := true }]
    "down" [] 0 (by decide)).1 (by decide)

/-- Claim C6 counterexample: the status derived for a remote plan ignores
its stored isActive flag — a plan with isActive = false and a future
expiry is still listed with status "Active", where the claim requires
"Expired". -/
theorem remote_view_status_ignores_isActive :
    ((listDelegationsRoute "0xaaaaaaaaaaaaaaaaaaaaaaaaaaaaaaaaaaaaaaaa" true
        (.ok [{ contractAddr := "0xbbbbbbbbbbbbbbbbbbbbbbbbbbbbbbbbbbbbbbbb",
                expiresAt := 100, addedAt := 0, description := "d", isActive := false }])
        [] 0).response.delegations.map (fun v => v.status)) = ["Active"] ∧
    ((listDelegationsRoute "0xaaaaaaaaaaaaaaaaaaaaaaaaaaaaaaaaaaaaaaaa" true
        (.ok [{ contractAddr := "0xbbbbbbbbbbbbbbbbbbbbbbbbbbbbbbbbbbbbbbbb",
                expiresAt := 100, addedAt := 0, description := "d", isActive := false }])
        [] 0).response.delegations.map (fun v => v.isActive)) = [some false] ∧
    (0 : ℕ) < 100 := by
  refine ⟨by rfl, by rfl, by decide⟩

/-- Claim C6 (amended): reading the delegation list never mutates the
store (time passage alone changes nothing), and the status carried by
every returned view is derived at read time from the clock alone: Active
exactly when now is strictly before expiresAt, Expired otherwise — the
isActive flag is not consulted for remote-derived views, and the memory
fallback omits inactive entries instead of listing them. -/
theorem derived_status_read_only :
    (∀ now plan, ((remotePlanView now plan).status = "Active" ↔ now < plan.expiresAt) ∧
      ((remotePlanView now plan).status = "Expired" ↔ ¬ now < plan.expiresAt)) ∧
    (∀ now d, ((localDelegationView now d).status = "Active" ↔ now < d.expiresAt) ∧
      ((localDelegationView now d).status = "Expired" ↔ ¬ now < d.expiresAt)) ∧
    (∀ u avail rr db now v,
      v ∈ (listDelegationsRoute u avail rr db now).response.delegations →
        (v.status = "Active" ↔ now < v.expiresAt)) ∧
    (∀ u avail rr db now, (listDelegationsRoute u avail rr db now).db = db) := by
  refine ⟨remotePlanView_status, localDelegationView_status, ?_, ?_⟩
  · intro u avail rr db now v hv
    by_cases hval : isAddress u = true
    · have hmem_local : ∀ w, w ∈ memoryScanFn u db now →
          (w.status = "Active" ↔ now < w.expiresAt) := by
        intro w hw
        obtain ⟨p, _, rfl⟩ := List.mem_map.1 hw
        exact (localDelegationView_status now p.2).1
      rw [listRoute_valid_eq u avail rr db now hval] at hv
      by_cases hlen : (remoteStepFn avail rr now).1.length = 0
      · rw [show (finalStepFn u db now (remoteStepFn avail rr now)).1 =
            memoryScanFn u db now by unfold finalStepFn; rw [if_pos hlen]] at hv
        exact hmem_local v hv
      · rw [show (finalStepFn u db now (remoteStepFn avail rr now)).1 =
            (remoteStepFn avail rr now).1 by unfold finalStepFn; rw [if_neg hlen]] at hv
        cases avail with
        | false => simp [remoteStepFn] at hv
        | true =>
            cases rr with
            | error e => simp [remoteStepFn] at hv
            | ok plans =>
                have hv2 : v ∈ (plans.map (remotePlanView now)).filter
                    (fun d => d.contractAddr ≠ ZERO_ADDRESS) := hv
                obtain ⟨plan, _, rfl⟩ := List.mem_map.1 (List.mem_of_mem_filter hv2)
                exact (remotePlanView_status now plan).1
    · simp [listDelegationsRoute, hval] at hv
  · intro u avail rr db now
    unfold listDelegationsRoute
    split <;> rfl

/-- Witness for C6's amended theorem at a concrete input. -/
theorem derived_status_read_only_witness :
    (localDelegationView 5
        { userAddress := "0xaaaaaaaaaaaaaaaaaaaaaaaaaaaaaaaaaaaaaaaa",
          contractAddress := "0xbbbbbbbbbbbbbbbbbbbbbbbbbbbbbbbbbbbbbbbb",
          expiresAt := 7200, description := "test", addedAt := 0,
          isActive := true }).status = "Active" ↔ (5 : ℕ) < 7200 :=
  (derived_status_read_only.2.2.1 "0xaaaaaaaaaaaaaaaaaaaaaaaaaaaaaaaaaaaaaaaa" false
    (.ok []) [("0xaaaaaaaaaaaaaaaaaaaaaaaaaaaaaaaaaaaaaaaa" ++ "-" ++
        "0xbbbbbbbbbbbbbbbbbbbbbbbbbbbbbbbbbbbbbbbb",
      { userAddress := "0xaaaaaaaaaaaaaaaaaaaaaaaaaaaaaaaaaaaaaaaa",
        contractAddress := "0xbbbbbbbbbbbbbbbbbbbbbbbbbbbbbbbbbbbbbbbb",
        expiresAt := 7200, description := "test", addedAt := 0, isActive := true })]
    5 _ (by decide))

/-- Claim C4 counterexample: the add-delegation handler performs no
duration validation at all — duration 0 is stored and reported as
success, not rejected with a ValidationError — and the validation helper
accepts a 60-second expiry window, below the configured 1-hour minimum
it never checks. -/
theorem add_route_accepts_zero_duration :
    (addDelegationRoute "0xaaaaaaaaaaaaaaaaaaaaaaaaaaaaaaaaaaaaaaaa"
        "0xbbbbbbbbbbbbbbbbbbbbbbbbbbbbbbbbbbbbbbbb" 0 "" 1000 true false
        []).response.success = true ∧
    (addDelegationRoute "0xaaaaaaaaaaaaaaaaaaaaaaaaaaaaaaaaaaaaaaaa"
        "0xbbbbbbbbbbbbbbbbbbbbbbbbbbbbbbbbbbbbbbbb" 0 "" 1000 true false
        []).response.message = "Delegation added successfully" ∧
    validateDelegationParams "0xaaaaaaaaaaaaaaaaaaaaaaaaaaaaaaaaaaaaaaaa"
      "0xbbbbbbbbbbbbbbbbbbbbbbbbbbbbbbbbbbbbbbbb" (1000 + 60) 1000 = [] ∧
    (60 : ℤ) < MIN_DELEGATION_DURATION := by
  refine ⟨by rfl, by rfl, by rfl, by decide⟩

/-- Claim C4 (amended): validateDelegationParams, applied to
expiresAt = now + durationSeconds, rejects duration 0 and durations
above the 30-day maximum, accumulates all violated constraints instead
of short-circuiting, and accepts exactly 1 hour and exactly 30 days;
the configured 1-hour minimum is not enforced, and the add-delegation
handler itself performs no duration validation and accepts duration 0
with success. -/
theorem delegation_duration_validation :
    (∀ u c now, isAddress u = true → isAddress c = true →
      validateDelegationParams u c now now = ["Expiration must be in the future"] ∧
      (∀ d : ℤ, MAX_DELEGATION_DURATION < d →
        validateDelegationParams u c (now + d) now =
          ["Delegation duration cannot exceed 30 days"]) ∧
      validateDelegationParams u c (now + MIN_DELEGATION_DURATION) now = [] ∧
      validateDelegationParams u c (now + MAX_DELEGATION_DURATION) now = []) ∧
    (∀ now : ℤ, validateDelegationParams "" "" now now =
      ["Invalid user address", "Invalid contract address",
        "Expiration must be in the future"]) ∧
    (∀ u c dur descr now avail rOk db, u ≠ "" → c ≠ "" →
      (addDelegationRoute u c dur descr now avail rOk db).response.success = true) := by
  refine ⟨?_, ?_, ?_⟩
  · intro u c now hu hc
    refine ⟨?_, ?_, ?_, ?_⟩
    · unfold validateDelegationParams MAX_DELEGATION_DURATION
      rw [if_neg (by simp [hu]), if_neg (by simp [hc]),
        if_pos (le_refl now), if_neg (by omega)]
      rfl
    · intro d hd
      unfold MAX_DELEGATION_DURATION at hd
      unfold validateDelegationParams MAX_DELEGATION_DURATION
      rw [if_neg (by simp [hu]), if_neg (by simp [hc]),
        if_neg (by omega), if_pos (by omega)]
      rfl
    · unfold validateDelegationParams MAX_DELEGATION_DURATION MIN_DELEGATION_DURATION
      rw [if_neg (by simp [hu]), if_neg (by simp [hc]),
        if_neg (by omega), if_neg (by omega)]
      rfl
    · unfold validateDelegationParams MAX_DELEGATION_DURATION
      rw [if_neg (by simp [hu]), if_neg (by simp [hc]),
        if_neg (by omega), if_neg (by omega)]
      rfl
  · intro now
    unfold validateDelegationParams MAX_DELEGATION_DURATION
    rw [if_pos (by decide), if_pos (by decide), if_pos (le_refl now), if_neg (by omega)]
    rfl
  · intro u c dur descr now avail rOk db hu hc
    have hne : ¬ (u = "" ∨ c = "") := by
      rintro (h | h)
      · exact hu h
      · exact hc h
    unfold addDelegationRoute
    rw [if_neg hne]

/-- Witness for C4's amended theorem at concrete inputs. -/
theorem delegation_duration_validation_witness :
    validateDelegationParams "0xaaaaaaaaaaaaaaaaaaaaaaaaaaaaaaaaaaaaaaaa"
      "0xbbbbbbbbbbbbbbbbbbbbbbbbbbbbbbbbbbbbbbbb" 1000 1000 =
      ["Expiration must be in the future"] ∧
    validateDelegationParams "0xaaaaaaaaaaaaaaaaaaaaaaaaaaaaaaaaaaaaaaaa"
      "0xbbbbbbbbbbbbbbbbbbbbbbbbbbbbbbbbbbbbbbbb"
      (1000 + MIN_DELEGATION_DURATION) 1000 = [] ∧
    validateDelegationParams "0xaaaaaaaaaaaaaaaaaaaaaaaaaaaaaaaaaaaaaaaa"
      "0xbbbbbbbbbbbbbbbbbbbbbbbbbbbbbbbbbbbbbbbb"
      (1000 + (MAX_DELEGATION_DURATION + 1)) 1000 =
      ["Delegation duration cannot exceed 30 days"] ∧
    (addDelegationRoute "0xaaaaaaaaaaaaaaaaaaaaaaaaaaaaaaaaaaaaaaaa"
        "0xbbbbbbbbbbbbbbbbbbbbbbbbbbbbbbbbbbbbbbbb" 0 "" 2000 false false
        []).response.success = true := by
  have h := delegation_duration_validation
  have h1 := h.1 "0xaaaaaaaaaaaaaaaaaaaaaaaaaaaaaaaaaaaaaaaa"
    "0xbbbbbbbbbbbbbbbbbbbbbbbbbbbbbbbbbbbbbbbb" 1000 (by decide) (by decide)
  exact ⟨h1.1, h1.2.2.1, h1.2.1 (MAX_DELEGATION_DURATION + 1) (by decide),
    h.2.2 "0xaaaaaaaaaaaaaaaaaaaaaaaaaaaaaaaaaaaaaaaa"
      "0xbbbbbbbbbbbbbbbbbbbbbbbbbbbbbbbbbbbbbbbb" 0 "" 2000 false false []
      (by decide) (by decide)⟩

end SmartGuard
